import Mathlib

/-!
Verification of the rd-burndown synchronization and burndown-calculation core.

Shallow embedding conventions:
* Calendar dates are integer day numbers (day 0 is 2024-01-01, a Monday), so
  `d + 1` is the next day, `e - s` is Python's `(e - s).days`, and
  `weekday d = d % 7` matches `date.weekday()` (Monday = 0 .. Sunday = 6).
  Timestamps are kept at day granularity because every consumer in the source
  applies `DATE(...)` or `.date()` before using them.
* Hours (Python floats in the source) are modelled as exact rationals.
* The SQLite store is a record of three row lists; `INSERT OR REPLACE` on a
  keyed table is modelled as "delete the conflicting rows, append the new row".
* The Redmine adapter is an explicit function argument
  `adapter : Option Int -> List TicketData` standing for
  `get_updated_tickets(project_id, since_date)`.
* The wall clock (`date.today()` / `datetime.now()`) is an explicit `today`
  argument.  The housekeeping `updated_at` column that the source stamps with
  `datetime.now()` on snapshot rows is wall-clock bookkeeping, not part of the
  bit-relevant snapshot fields, and is not modelled on snapshot rows.
* The holiday calendar consumed by `get_business_days` is an external
  collaborator; it enters as a predicate `isHoliday : Int -> Bool`.
-/

namespace RdBurndown

/-- Work hours; Python floats modelled as exact rationals. -/
abbrev Hours := ℚ

/-- Python's `date.weekday()`: Monday = 0 .. Sunday = 6 for our day numbers. -/
def weekday (d : Int) : Int := d % 7

/-- Python's `int(...)` on a float/rational: truncation toward zero. -/
def pyInt (q : ℚ) : Int := Int.tdiv q.num q.den

/-- The inclusive day range `[s, e]`, as produced by the
`while current <= end: ...; current += timedelta(days=1)` loops. -/
def dayRange (s e : Int) : List Int :=
  (List.range (e + 1 - s).toNat).map (fun i => s + i)

/-- `models.TicketData`: a ticket as returned by the Redmine adapter.
Only the load-bearing fields (the ones consumed by the synchronizer and the
snapshot builder) are modelled. -/
structure TicketData where
  id : Nat
  subject : String
  estimated_hours : Option Hours
  created_on : Int
  updated_on : Int
  status_id : Nat
  project_id : Nat
deriving Repr, DecidableEq

/-- `TicketData.is_completed`: Redmine default completed status ids 3, 5, 6. -/
def TicketData.is_completed (t : TicketData) : Bool :=
  t.status_id = 3 ∨ t.status_id = 5 ∨ t.status_id = 6

/-- `TicketData.completion_date`: the update date when completed, else null. -/
def TicketData.completion_date (t : TicketData) : Option Int :=
  if t.is_completed then some t.updated_on else none

/-- A row of the `tickets` table (the columns the modelled paths read).
`completed_on` holds the already-parsed completion date; `updated_at` holds
the day component of the local save timestamp. -/
structure TicketRow where
  id : Nat
  project_id : Nat
  subject : String
  estimated_hours : Option Hours
  created_on : Int
  updated_on : Int
  completed_on : Option Int
  updated_at : Int
deriving Repr, DecidableEq

/-- A row of the `daily_snapshots` table (bit-relevant fields,
`UNIQUE(date, project_id)`). -/
structure SnapRow where
  date : Int
  project_id : Nat
  total_estimated_hours : Hours
  completed_hours : Hours
  remaining_hours : Hours
  active_ticket_count : Nat
  completed_ticket_count : Nat
deriving Repr, DecidableEq

/-- A row of the `scope_changes` table. -/
structure ScopeRow where
  date : Int
  project_id : Nat
  ticket_id : Nat
  ticket_subject : String
  change_type : String
  hours_delta : Hours
  old_hours : Option Hours
  new_hours : Option Hours
  reason : String
deriving Repr, DecidableEq

/-- The persistent store: the three tables the modelled operations touch. -/
structure Store where
  tickets : List TicketRow
  snapshots : List SnapRow
  scope_changes : List ScopeRow
deriving Repr, DecidableEq

/-- The tickets-table row written by `DataManager._save_tickets` for one
ticket: `completed_on := ticket.completion_date()`, `updated_at := now`. -/
def ticketRowOf (today : Int) (t : TicketData) : TicketRow :=
  { id := t.id
    project_id := t.project_id
    subject := t.subject
    estimated_hours := t.estimated_hours
    created_on := t.created_on
    updated_on := t.updated_on
    completed_on := t.completion_date
    updated_at := today }

/-- `INSERT OR REPLACE INTO tickets` keyed by the primary key `id`:
conflicting rows are deleted and the new row inserted. -/
def upsertTicket (r : TicketRow) (rows : List TicketRow) : List TicketRow :=
  rows.filter (fun x => x.id ≠ r.id) ++ [r]

/-- `DataManager._save_tickets`: upsert every ticket of the batch in order
(the early return on an empty batch coincides with an empty fold). -/
def save_tickets (today : Int) (ts : List TicketData) (s : Store) : Store :=
  { s with tickets := ts.foldl (fun rows t => upsertTicket (ticketRowOf today t) rows) s.tickets }

/-- The completion test inside `_create_daily_snapshot`: the ticket has a
non-null `completed_on` whose date is `<= target_date`. -/
def countsCompletedBy (d : Int) (t : TicketRow) : Bool :=
  match t.completed_on with
  | some c => c ≤ d
  | none => false

/-- Accumulator of the per-ticket loop in `_create_daily_snapshot`. -/
structure SnapAccum where
  total : Hours
  completed : Hours
  active : Nat
  completedCount : Nat
deriving Repr, DecidableEq

/-- One iteration of the `_create_daily_snapshot` ticket loop:
`total += est`, then classify the ticket as completed-by-`d` or active.
(`completed_on` is stored already parsed, so the `ValueError` fallback of
the source, which treats an unparseable date as active, has no inhabitant.) -/
def snapStep (d : Int) (acc : SnapAccum) (t : TicketRow) : SnapAccum :=
  let est := t.estimated_hours.getD 0
  let acc := { acc with total := acc.total + est }
  match t.completed_on with
  | some c =>
      if c ≤ d then
        { acc with completed := acc.completed + est
                   completedCount := acc.completedCount + 1 }
      else
        { acc with active := acc.active + 1 }
  | none => { acc with active := acc.active + 1 }

/-- The snapshot row `_create_daily_snapshot` computes for `(pid, d)`:
scan the project's tickets with `DATE(created_on) <= d`, accumulate, and set
`remaining_hours := total - completed`. -/
def computeSnapshotRow (rows : List TicketRow) (pid : Nat) (d : Int) : SnapRow :=
  let acc := (rows.filter (fun t => t.project_id = pid ∧ t.created_on ≤ d)).foldl
    (snapStep d) ⟨0, 0, 0, 0⟩
  { date := d
    project_id := pid
    total_estimated_hours := acc.total
    completed_hours := acc.completed
    remaining_hours := acc.total - acc.completed
    active_ticket_count := acc.active
    completed_ticket_count := acc.completedCount }

/-- `INSERT OR REPLACE INTO daily_snapshots` keyed by `(date, project_id)`. -/
def upsertSnapshot (r : SnapRow) (rows : List SnapRow) : List SnapRow :=
  rows.filter (fun x => ¬(x.date = r.date ∧ x.project_id = r.project_id)) ++ [r]

/-- `DataManager._create_daily_snapshot`: compute the row for `(pid, d)` from
the current tickets table and upsert it. -/
def create_daily_snapshot (pid : Nat) (d : Int) (s : Store) : Store :=
  { s with snapshots := upsertSnapshot (computeSnapshotRow s.tickets pid d) s.snapshots }

/-- `DataManager._record_scope_change`: append one audit row dated `today`
with `reason = "Ticket <change_type>"`. -/
def record_scope_change (today : Int) (pid : Nat) (t : TicketData)
    (change_type : String) (hours_delta : Hours)
    (old_hours new_hours : Option Hours) (s : Store) : Store :=
  { s with scope_changes := s.scope_changes ++
      [{ date := today
         project_id := pid
         ticket_id := t.id
         ticket_subject := t.subject
         change_type := change_type
         hours_delta := hours_delta
         old_hours := old_hours
         new_hours := new_hours
         reason := "Ticket " ++ change_type }] }

/-- `DataManager._detect_scope_changes`: for each updated ticket, look up the
currently stored row by `id` (this reads the store as it is at call time).
If a row exists, compare null-normalized estimates and emit `modified` on a
difference; otherwise emit `added` unless the new estimate is falsy
(Python truthiness: `None` and `0.0` are both falsy). -/
def detect_scope_changes (today : Int) (pid : Nat)
    (updated_tickets : List TicketData) (s : Store) : Store :=
  updated_tickets.foldl
    (fun st t =>
      match st.tickets.find? (fun r => r.id = t.id) with
      | some existing =>
          let old_hours := existing.estimated_hours.getD 0
          let new_hours := t.estimated_hours.getD 0
          if old_hours ≠ new_hours then
            record_scope_change today pid t "modified" (new_hours - old_hours)
              (some old_hours) (some new_hours) st
          else st
      | none =>
          match t.estimated_hours with
          | some h =>
              if h ≠ 0 then
                record_scope_change today pid t "added" h none (some h) st
              else st
          | none => st)
    s

/-- `DataManager._update_daily_snapshots`: rebuild the snapshot of every day
from `since_date` (default: seven days back) through today. -/
def update_daily_snapshots (today : Int) (pid : Nat)
    (since_date : Option Int) (s : Store) : Store :=
  let since := since_date.getD (today - 7)
  (dayRange since today).foldl (fun st d => create_daily_snapshot pid d st) s

/-- SQL `MAX` over a column of dates: `NULL` on the empty set. -/
def maxDate : List Int → Option Int
  | [] => none
  | d :: ds =>
      match maxDate ds with
      | none => some d
      | some m => some (max d m)

/-- `DataManager._get_last_update_date`:
`SELECT MAX(DATE(updated_at)) FROM tickets WHERE project_id = ?` —
`NULL` on an empty set, otherwise the maximum saved-at date. -/
def get_last_update_date (pid : Nat) (s : Store) : Option Int :=
  maxDate ((s.tickets.filter (fun t => t.project_id = pid)).map (fun t => t.updated_at))

/-- Result of one `fetch_project_updates` call: the store after the call,
together with the `since_date` actually passed to the adapter
(observable because `get_updated_tickets` is called with exactly it). -/
structure FetchResult where
  usedSince : Option Int
  store : Store
deriving Repr, DecidableEq

/-- The since-date `fetch_project_updates` settles on before calling the
adapter: the persisted watermark when running incrementally without an
explicit `since_date`, otherwise the caller's `since_date` unchanged. -/
def effective_since (pid : Nat) (incremental : Bool)
    (since_date : Option Int) (s : Store) : Option Int :=
  if incremental && since_date.isNone then get_last_update_date pid s
  else since_date

/-- `DataManager.fetch_project_updates`: derive the watermark when running
incrementally without an explicit `since_date`, pull the updated tickets,
and — only when the adapter returned a non-empty batch — save them, run
scope-change detection, and rebuild the trailing snapshot window.
The source order is load-bearing: `_save_tickets` runs BEFORE
`_detect_scope_changes`. -/
def fetch_project_updates (adapter : Option Int → List TicketData)
    (today : Int) (pid : Nat) (incremental : Bool)
    (since_date : Option Int) (s : Store) : FetchResult :=
  let since := effective_since pid incremental since_date s
  let updated_tickets := adapter since
  if updated_tickets.isEmpty then ⟨since, s⟩
  else
    let s1 := save_tickets today updated_tickets s
    let s2 := detect_scope_changes today pid updated_tickets s1
    let s3 := update_daily_snapshots today pid since s2
    ⟨since, s3⟩

/-! ## Burndown calculator (`core/calculator.py`)

The calculator consumes an assembled `ProjectTimeline`; snapshot and scope
rows carry the persisted-schema fields, with the `fromisoformat` round trip
of the stored date strings modelled as the identity. -/

/-- `models.ProjectTimeline` as consumed by `BurndownCalculator`. -/
structure ProjectTimeline where
  project_id : Nat
  project_name : String
  start_date : Int
  end_date : Option Int
  snapshots : List SnapRow
  scope_changes : List ScopeRow
deriving Repr, DecidableEq

/-- `BurndownCalculator._get_remaining_hours_for_date`: the `remaining_hours`
of the first snapshot dated `target_date`, if any. -/
def get_remaining_hours_for_date (tl : ProjectTimeline) (target_date : Int) :
    Option Hours :=
  (tl.snapshots.find? (fun snap => snap.date = target_date)).map
    (fun snap => snap.remaining_hours)

/-- `BurndownCalculator._get_completed_hours_for_date`: the `completed_hours`
of the first snapshot dated `target_date`, defaulting to `0.0`. -/
def get_completed_hours_for_date (tl : ProjectTimeline) (target_date : Int) :
    Hours :=
  ((tl.snapshots.find? (fun snap => snap.date = target_date)).map
    (fun snap => snap.completed_hours)).getD 0

/-- `date_utils.get_business_days_between` with the holiday calendar as an
external predicate: count the days of `[s, e]` that are weekdays and not
holidays. -/
def get_business_days_between (isHoliday : Int → Bool) (s e : Int) : Nat :=
  ((dayRange s e).filter (fun d => weekday d < 5 && !isHoliday d)).length

/-- The `total_days` of `calculate_ideal_line`: business days or the plain
`(end - start).days`, by flag. -/
def idealTotalDays (isHoliday : Int → Bool) (exclude_weekends : Bool)
    (s e : Int) : Int :=
  if exclude_weekends then get_business_days_between isHoliday s e else e - s

/-- The emission loop of `calculate_ideal_line`: one point per day from the
start date through the end date; after stepping to the next day the hours
decrease by `rate` unless weekends are excluded and the new day is one. -/
def idealLineLoop (exclude_weekends : Bool) (rate : Hours) :
    Nat → Int → Hours → List (Int × Hours)
  | 0, _, _ => []
  | fuel + 1, cur, hrs =>
      (cur, max 0 hrs) ::
        idealLineLoop exclude_weekends rate fuel (cur + 1)
          (if !exclude_weekends || weekday (cur + 1) < 5 then hrs - rate else hrs)

/-- `BurndownCalculator.calculate_ideal_line`. -/
def calculate_ideal_line (isHoliday : Int → Bool) (tl : ProjectTimeline)
    (exclude_weekends : Bool) (start_from_date : Option Int) (today : Int) :
    List (Int × Hours) :=
  match tl.snapshots with
  | [] => []
  | first :: _ =>
    let startPair : Hours × Int :=
      match start_from_date with
      | some d =>
          match get_remaining_hours_for_date tl d with
          | none => (first.total_estimated_hours, tl.start_date)
          | some h => (h, d)
      | none => (first.total_estimated_hours, tl.start_date)
    let start_hours := startPair.1
    let start_date := startPair.2
    let end_date := tl.end_date.getD today
    let total_days := idealTotalDays isHoliday exclude_weekends start_date end_date
    if total_days ≤ 0 then [(start_date, start_hours), (end_date, 0)]
    else
      idealLineLoop exclude_weekends (start_hours / (total_days : ℚ))
        (end_date + 1 - start_date).toNat start_date start_hours

/-- `BurndownCalculator.calculate_actual_line`: one point per snapshot. -/
def calculate_actual_line (tl : ProjectTimeline) : List (Int × Hours) :=
  tl.snapshots.map (fun snap => (snap.date, snap.remaining_hours))

/-- `BurndownCalculator.calculate_scope_trend_line`. -/
def calculate_scope_trend_line (tl : ProjectTimeline) : List (Int × Hours) :=
  tl.snapshots.map (fun snap => (snap.date, snap.total_estimated_hours))

/-- `BurndownCalculator._prepare_scope_changes_by_date`, read back at one
date: the dict built by summing `hours_delta` per date, with `get(d, 0.0)`. -/
def scopeDeltaOn (tl : ProjectTimeline) (d : Int) : Hours :=
  ((tl.scope_changes.filter (fun c => c.date = d)).map
    (fun c => c.hours_delta)).sum

/-- `BurndownCalculator._calculate_dynamic_remaining_hours`. -/
def dynamicRemainingHours (isHoliday : Int → Bool) (tl : ProjectTimeline)
    (cur endD : Int) (current_total : Hours) (exclude_weekends : Bool) : Hours :=
  let remaining_days : Int :=
    if exclude_weekends then get_business_days_between isHoliday cur endD
    else endD - cur
  if remaining_days ≤ 0 then 0
  else current_total - get_completed_hours_for_date tl cur

/-- The daily loop of `_calculate_daily_dynamic_ideal`. -/
def dynamicIdealLoop (isHoliday : Int → Bool) (tl : ProjectTimeline)
    (exclude_weekends : Bool) (endD : Int) :
    Nat → Int → Hours → List (Int × Hours)
  | 0, _, _ => []
  | fuel + 1, cur, total =>
      let total := total + scopeDeltaOn tl cur
      let rem := dynamicRemainingHours isHoliday tl cur endD total exclude_weekends
      (cur, max 0 rem) ::
        dynamicIdealLoop isHoliday tl exclude_weekends endD fuel (cur + 1) total

/-- `BurndownCalculator.calculate_dynamic_ideal_line`. -/
def calculate_dynamic_ideal_line (isHoliday : Int → Bool)
    (tl : ProjectTimeline) (exclude_weekends : Bool) (today : Int) :
    List (Int × Hours) :=
  match tl.snapshots with
  | [] => []
  | first :: _ =>
    let end_date := tl.end_date.getD today
    dynamicIdealLoop isHoliday tl exclude_weekends end_date
      (end_date + 1 - tl.start_date).toNat tl.start_date
      first.total_estimated_hours

/-- The trailing window `snapshots[-days:] if len(snapshots) >= days else
snapshots` (Python slicing: `[-0:]` is the whole list). -/
def recentWindow (snaps : List SnapRow) (days : Nat) : List SnapRow :=
  if snaps.length ≥ days then
    if days = 0 then snaps else snaps.drop (snaps.length - days)
  else snaps

/-- `BurndownCalculator.calculate_burn_rate`. -/
def calculate_burn_rate (tl : ProjectTimeline) (days : Nat) : Hours :=
  if tl.snapshots.length < 2 then 0
  else
    match recentWindow tl.snapshots days with
    | [] => 0
    | [_] => 0
    | first :: next :: rest =>
      let lastSnap := (next :: rest).getLastD first
      let burned_hours := first.remaining_hours - lastSnap.remaining_hours
      let actual_days := (next :: rest).length
      burned_hours / (actual_days : ℚ)

/-- The velocity record returned by `calculate_velocity`; `period_days` is
absent from the degenerate (< 2 snapshots in window) results. -/
structure VelocityInfo where
  velocity : Hours
  tickets_completed : Int
  hours_completed : Hours
  period_days : Option Nat
deriving Repr, DecidableEq

/-- `BurndownCalculator.calculate_velocity`. -/
def calculate_velocity (tl : ProjectTimeline) (days : Nat) : VelocityInfo :=
  if tl.snapshots.length < 2 then ⟨0, 0, 0, none⟩
  else
    match recentWindow tl.snapshots days with
    | [] => ⟨0, 0, 0, none⟩
    | [_] => ⟨0, 0, 0, none⟩
    | first :: next :: rest =>
      let lastSnap := (next :: rest).getLastD first
      let completed_hours_delta :=
        lastSnap.completed_hours - first.completed_hours
      let completed_tickets_delta : Int :=
        (lastSnap.completed_ticket_count : Int) - first.completed_ticket_count
      let actual_days := (next :: rest).length
      ⟨completed_hours_delta / (actual_days : ℚ), completed_tickets_delta,
        completed_hours_delta, some actual_days⟩

/-- The forecast record returned by `calculate_completion_forecast`
(the informational `current_velocity` / `remaining_hours` keys the success
branch also reports are reporting extras, not modelled). -/
structure ForecastResult where
  forecast_date : Option Int
  days_remaining : Option Int
  confidence : String
deriving Repr, DecidableEq

/-- `BurndownCalculator.calculate_completion_forecast`. -/
def calculate_completion_forecast (tl : ProjectTimeline)
    (velocity_days : Nat) : ForecastResult :=
  match tl.snapshots.getLast? with
  | none => ⟨none, none, "low"⟩
  | some latest =>
    let remaining_hours := latest.remaining_hours
    if remaining_hours ≤ 0 then ⟨some latest.date, some 0, "high"⟩
    else
      let velocity := (calculate_velocity tl velocity_days).velocity
      if velocity ≤ 0 then ⟨none, none, "low"⟩
      else
        let days_needed := remaining_hours / velocity
        let forecast_date := latest.date + pyInt days_needed
        let burn_rate := calculate_burn_rate tl velocity_days
        let confidence :=
          if burn_rate > 0 && velocity > 0 then "high"
          else if velocity > 0 then "medium" else "low"
        ⟨some forecast_date, some (pyInt days_needed), confidence⟩

/-! ## Concrete fixtures used to instantiate the theorems below -/

/-- A ticket of project 1 persisted with an estimate of 5 hours. -/
def c1PriorRow : TicketRow :=
  { id := 1, project_id := 1, subject := "Ticket one"
    estimated_hours := some 5, created_on := 0, updated_on := 0
    completed_on := none, updated_at := 0 }

/-- A store holding only `c1PriorRow`. -/
def c1Store : Store := { tickets := [c1PriorRow], snapshots := [], scope_changes := [] }

/-- The same ticket as returned by the adapter with its estimate raised to 8. -/
def c1Update : TicketData :=
  { id := 1, subject := "Ticket one", estimated_hours := some 8
    created_on := 0, updated_on := 2, status_id := 1, project_id := 1 }

/-- An adapter that reports `c1Update` as the only updated ticket. -/
def c1Adapter : Option Int → List TicketData := fun _ => [c1Update]

/-- Two tickets of project 1: one completed on day 1 (3 hours), one
unestimated. -/
def c2Store : Store :=
  { tickets :=
      [ { id := 1, project_id := 1, subject := "a", estimated_hours := some 3
          created_on := 0, updated_on := 1, completed_on := some 1, updated_at := 1 }
      , { id := 2, project_id := 1, subject := "b", estimated_hours := none
          created_on := 0, updated_on := 0, completed_on := none, updated_at := 0 } ]
    snapshots := [], scope_changes := [] }

/-- A ticket created on day 0 and completed on day 2, worth 5 hours. -/
def c3Ticket : TicketRow :=
  { id := 7, project_id := 1, subject := "c", estimated_hours := some 5
    created_on := 0, updated_on := 2, completed_on := some 2, updated_at := 2 }

/-- A single snapshot with 100 hours remaining. -/
def c4Snap : SnapRow :=
  { date := 0, project_id := 1, total_estimated_hours := 100
    completed_hours := 0, remaining_hours := 100
    active_ticket_count := 4, completed_ticket_count := 0 }

/-- A timeline whose only snapshot is `c4Snap`. -/
def c4Timeline : ProjectTimeline :=
  { project_id := 1, project_name := "p", start_date := 0, end_date := some 10
    snapshots := [c4Snap], scope_changes := [] }

/-- A snapshot for day 4 with 60 hours remaining. -/
def c5Snap : SnapRow :=
  { date := 4, project_id := 1, total_estimated_hours := 100
    completed_hours := 40, remaining_hours := 60
    active_ticket_count := 3, completed_ticket_count := 2 }

/-- A timeline holding `c5Snap`, spanning days 0 to 10. -/
def c5Timeline : ProjectTimeline :=
  { project_id := 1, project_name := "p", start_date := 0, end_date := some 10
    snapshots := [c5Snap], scope_changes := [] }

/-- Two tickets of project 1 saved on days 4 and 9, and one of project 2
saved on day 99. -/
def c6Store : Store :=
  { tickets :=
      [ { id := 1, project_id := 1, subject := "a", estimated_hours := some 1
          created_on := 0, updated_on := 0, completed_on := none, updated_at := 4 }
      , { id := 2, project_id := 1, subject := "b", estimated_hours := some 2
          created_on := 0, updated_on := 0, completed_on := none, updated_at := 9 }
      , { id := 3, project_id := 2, subject := "c", estimated_hours := some 3
          created_on := 0, updated_on := 0, completed_on := none, updated_at := 99 } ]
    snapshots := [], scope_changes := [] }

/-- A store with one persisted ticket and one snapshot, used to observe that
an empty update batch leaves everything in place. -/
def c7Store : Store :=
  { tickets :=
      [ { id := 1, project_id := 1, subject := "a", estimated_hours := some 2
          created_on := 0, updated_on := 0, completed_on := none, updated_at := 3 } ]
    snapshots :=
      [ { date := 0, project_id := 1, total_estimated_hours := 2
          completed_hours := 0, remaining_hours := 2
          active_ticket_count := 1, completed_ticket_count := 0 } ]
    scope_changes := [] }

/-- A degenerate timeline: one snapshot, start date equal to the end date. -/
def c9Timeline : ProjectTimeline :=
  { project_id := 1, project_name := "p", start_date := 5, end_date := some 5
    snapshots :=
      [ { date := 5, project_id := 1, total_estimated_hours := 40
          completed_hours := 0, remaining_hours := 40
          active_ticket_count := 2, completed_ticket_count := 0 } ]
    scope_changes := [] }

/-- A timeline with no snapshots at all. -/
def c10Timeline : ProjectTimeline :=
  { project_id := 1, project_name := "p", start_date := 0, end_date := some 10
    snapshots := [], scope_changes := [] }

/-! ## Lemmas about the snapshot builder's per-ticket loop -/

lemma snapStep_total (d : Int) (acc : SnapAccum) (t : TicketRow) :
    (snapStep d acc t).total = acc.total + t.estimated_hours.getD 0 := by
  unfold snapStep
  cases t.completed_on with
  | none => rfl
  | some c => by_cases hc : c ≤ d <;> simp [hc]

lemma snapStep_completed (d : Int) (acc : SnapAccum) (t : TicketRow) :
    (snapStep d acc t).completed =
      if countsCompletedBy d t then acc.completed + t.estimated_hours.getD 0
      else acc.completed := by
  unfold snapStep countsCompletedBy
  cases t.completed_on with
  | none => rfl
  | some c => by_cases hc : c ≤ d <;> simp [hc]

lemma snapStep_ccount (d : Int) (acc : SnapAccum) (t : TicketRow) :
    (snapStep d acc t).completedCount =
      if countsCompletedBy d t then acc.completedCount + 1
      else acc.completedCount := by
  unfold snapStep countsCompletedBy
  cases t.completed_on with
  | none => rfl
  | some c => by_cases hc : c ≤ d <;> simp [hc]

lemma snapStep_active (d : Int) (acc : SnapAccum) (t : TicketRow) :
    (snapStep d acc t).active =
      if countsCompletedBy d t then acc.active else acc.active + 1 := by
  unfold snapStep countsCompletedBy
  cases t.completed_on with
  | none => rfl
  | some c => by_cases hc : c ≤ d <;> simp [hc]

lemma foldl_snapStep_total (d : Int) :
    ∀ (l : List TicketRow) (acc : SnapAccum),
      (l.foldl (snapStep d) acc).total
        = acc.total + (l.map (fun t => t.estimated_hours.getD 0)).sum := by
  intro l
  induction l with
  | nil => intro acc; simp
  | cons t ts ih =>
      intro acc
      simp [List.foldl_cons, ih, snapStep_total, add_assoc]

lemma foldl_snapStep_completed (d : Int) :
    ∀ (l : List TicketRow) (acc : SnapAccum),
      (l.foldl (snapStep d) acc).completed
        = acc.completed
          + ((l.filter (countsCompletedBy d)).map
              (fun t => t.estimated_hours.getD 0)).sum := by
  intro l
  induction l with
  | nil => intro acc; simp
  | cons t ts ih =>
      intro acc
      cases hc : countsCompletedBy d t <;>
        simp [List.foldl_cons, ih, snapStep_completed, hc, List.filter_cons, add_assoc]

lemma foldl_snapStep_ccount (d : Int) :
    ∀ (l : List TicketRow) (acc : SnapAccum),
      (l.foldl (snapStep d) acc).completedCount
        = acc.completedCount + l.countP (countsCompletedBy d) := by
  intro l
  induction l with
  | nil => intro acc; simp
  | cons t ts ih =>
      intro acc
      cases hc : countsCompletedBy d t <;>
        simp [List.foldl_cons, ih, snapStep_ccount, hc, List.countP_cons] <;> omega

lemma foldl_snapStep_active (d : Int) :
    ∀ (l : List TicketRow) (acc : SnapAccum),
      (l.foldl (snapStep d) acc).active
        = acc.active + l.countP (fun t => !countsCompletedBy d t) := by
  intro l
  induction l with
  | nil => intro acc; simp
  | cons t ts ih =>
      intro acc
      cases hc : countsCompletedBy d t <;>
        simp [List.foldl_cons, ih, snapStep_active, hc, List.countP_cons] <;> omega

lemma foldl_snapStep_le (d : Int) :
    ∀ (l : List TicketRow) (acc : SnapAccum),
      (∀ t ∈ l, 0 ≤ t.estimated_hours.getD 0) →
      acc.completed ≤ acc.total →
      (l.foldl (snapStep d) acc).completed ≤ (l.foldl (snapStep d) acc).total := by
  intro l
  induction l with
  | nil => intro acc _ hle; simpa using hle
  | cons t ts ih =>
      intro acc h hle
      have hest : 0 ≤ t.estimated_hours.getD 0 := h t (by simp)
      rw [List.foldl_cons]
      apply ih
      · intro x hx; exact h x (by simp [hx])
      · rw [snapStep_completed, snapStep_total]
        cases hc : countsCompletedBy d t <;> simp [hc] <;> linarith

lemma computeSnapshotRow_total (rows : List TicketRow) (pid : Nat) (d : Int) :
    (computeSnapshotRow rows pid d).total_estimated_hours
      = ((rows.filter (fun t => t.project_id = pid ∧ t.created_on ≤ d)).map
          (fun t => t.estimated_hours.getD 0)).sum := by
  simp only [computeSnapshotRow]
  rw [foldl_snapStep_total]
  simp

lemma computeSnapshotRow_completed (rows : List TicketRow) (pid : Nat) (d : Int) :
    (computeSnapshotRow rows pid d).completed_hours
      = (((rows.filter (fun t => t.project_id = pid ∧ t.created_on ≤ d)).filter
            (countsCompletedBy d)).map (fun t => t.estimated_hours.getD 0)).sum := by
  simp only [computeSnapshotRow]
  rw [foldl_snapStep_completed]
  simp

lemma computeSnapshotRow_ccount (rows : List TicketRow) (pid : Nat) (d : Int) :
    (computeSnapshotRow rows pid d).completed_ticket_count
      = (rows.filter (fun t => t.project_id = pid ∧ t.created_on ≤ d)).countP
          (countsCompletedBy d) := by
  simp only [computeSnapshotRow]
  rw [foldl_snapStep_ccount]
  simp

lemma computeSnapshotRow_active (rows : List TicketRow) (pid : Nat) (d : Int) :
    (computeSnapshotRow rows pid d).active_ticket_count
      = (rows.filter (fun t => t.project_id = pid ∧ t.created_on ≤ d)).countP
          (fun t => !countsCompletedBy d t) := by
  simp only [computeSnapshotRow]
  rw [foldl_snapStep_active]
  simp

lemma upsertSnapshot_idem (r : SnapRow) (l : List SnapRow) :
    upsertSnapshot r (upsertSnapshot r l) = upsertSnapshot r l := by
  unfold upsertSnapshot
  rw [List.filter_append]
  simp [List.filter_filter]

/-! ## C2 -/

/-- C2: every snapshot row the builder produces satisfies
`remaining_hours = total_estimated_hours - completed_hours`, and (granted
non-negative per-ticket estimates) `remaining_hours >= 0`; the row written by
`_create_daily_snapshot` is exactly the computed row. -/
theorem snapshot_invariant (s : Store) (pid : Nat) (d : Int)
    (h : ∀ t ∈ s.tickets, 0 ≤ t.estimated_hours.getD 0) :
    (create_daily_snapshot pid d s).snapshots.getLast?
        = some (computeSnapshotRow s.tickets pid d) ∧
    (computeSnapshotRow s.tickets pid d).remaining_hours
      = (computeSnapshotRow s.tickets pid d).total_estimated_hours
        - (computeSnapshotRow s.tickets pid d).completed_hours ∧
    0 ≤ (computeSnapshotRow s.tickets pid d).remaining_hours := by
  refine ⟨?_, rfl, ?_⟩
  · simp [create_daily_snapshot, upsertSnapshot]
  · have hle : (computeSnapshotRow s.tickets pid d).completed_hours
        ≤ (computeSnapshotRow s.tickets pid d).total_estimated_hours := by
      simp only [computeSnapshotRow]
      apply foldl_snapStep_le
      · intro t ht
        exact h t (List.mem_of_mem_filter ht)
      · exact le_refl 0
    exact sub_nonneg.mpr hle

/-- Witness for C2 at a concrete two-ticket store. -/
theorem snapshot_invariant_witness :
    0 ≤ (computeSnapshotRow c2Store.tickets 1 5).remaining_hours :=
  (snapshot_invariant c2Store 1 5 (by decide)).2.2

/-! ## C3 -/

/-- C3: a ticket of the project created on or before `d` and completed on
date `c` is counted completed by the snapshot for `d` exactly when `c ≤ d`
(its estimate joins `completed_hours` and the completed count grows by one),
and counted active exactly when `d < c`. -/
theorem snapshot_monotonic_completion
    (t : TicketRow) (ts : List TicketRow) (pid : Nat) (d c : Int)
    (hproj : t.project_id = pid) (hcomp : t.completed_on = some c)
    (hcreated : t.created_on ≤ d) :
    (c ≤ d →
      (computeSnapshotRow (t :: ts) pid d).completed_hours
          = t.estimated_hours.getD 0 + (computeSnapshotRow ts pid d).completed_hours ∧
      (computeSnapshotRow (t :: ts) pid d).completed_ticket_count
          = (computeSnapshotRow ts pid d).completed_ticket_count + 1 ∧
      (computeSnapshotRow (t :: ts) pid d).active_ticket_count
          = (computeSnapshotRow ts pid d).active_ticket_count) ∧
    (d < c →
      (computeSnapshotRow (t :: ts) pid d).active_ticket_count
          = (computeSnapshotRow ts pid d).active_ticket_count + 1 ∧
      (computeSnapshotRow (t :: ts) pid d).completed_hours
          = (computeSnapshotRow ts pid d).completed_hours ∧
      (computeSnapshotRow (t :: ts) pid d).completed_ticket_count
          = (computeSnapshotRow ts pid d).completed_ticket_count) := by
  have hfq : ((t :: ts).filter (fun x => x.project_id = pid ∧ x.created_on ≤ d))
      = t :: (ts.filter (fun x => x.project_id = pid ∧ x.created_on ≤ d)) := by
    simp [List.filter_cons, hproj, hcreated]
  constructor
  · intro hcd
    have hcb : countsCompletedBy d t = true := by
      simp [countsCompletedBy, hcomp, hcd]
    refine ⟨?_, ?_, ?_⟩
    · rw [computeSnapshotRow_completed, computeSnapshotRow_completed, hfq,
        List.filter_cons]
      simp [hcb]
    · rw [computeSnapshotRow_ccount, computeSnapshotRow_ccount, hfq,
        List.countP_cons]
      simp [hcb]
    · rw [computeSnapshotRow_active, computeSnapshotRow_active, hfq,
        List.countP_cons]
      simp [hcb]
  · intro hdc
    have hcb : countsCompletedBy d t = false := by
      simp [countsCompletedBy, hcomp]
      exact hdc
    refine ⟨?_, ?_, ?_⟩
    · rw [computeSnapshotRow_active, computeSnapshotRow_active, hfq,
        List.countP_cons]
      simp [hcb]
    · rw [computeSnapshotRow_completed, computeSnapshotRow_completed, hfq,
        List.filter_cons]
      simp [hcb]
    · rw [computeSnapshotRow_ccount, computeSnapshotRow_ccount, hfq,
        List.countP_cons]
      simp [hcb]

/-- Witness for C3: a ticket completed on day 2, observed on day 3. -/
theorem snapshot_monotonic_completion_witness :
    (computeSnapshotRow [c3Ticket] 1 3).completed_ticket_count
      = (computeSnapshotRow [] 1 3).completed_ticket_count + 1 :=
  ((snapshot_monotonic_completion c3Ticket [] 1 3 2 rfl rfl (by decide)).1
    (by decide)).2.1

/-! ## C8 -/

/-- C8: rebuilding the snapshot of the same `(project, date)` twice over
unchanged ticket data is idempotent — the second rebuild recomputes the very
same row and leaves the store identical — and the upsert keeps exactly one
row keyed `(d, pid)`. -/
theorem snapshot_rebuild_idempotent (s : Store) (pid : Nat) (d : Int) :
    create_daily_snapshot pid d (create_daily_snapshot pid d s)
      = create_daily_snapshot pid d s ∧
    computeSnapshotRow (create_daily_snapshot pid d s).tickets pid d
      = computeSnapshotRow s.tickets pid d ∧
    (create_daily_snapshot pid d s).snapshots.countP
        (fun r => r.date = d ∧ r.project_id = pid) = 1 := by
  refine ⟨?_, rfl, ?_⟩
  · show ({ tickets := s.tickets,
            snapshots := _, scope_changes := s.scope_changes } : Store) = _
    simp [create_daily_snapshot, upsertSnapshot_idem]
  · have hd : (computeSnapshotRow s.tickets pid d).date = d := rfl
    have hp : (computeSnapshotRow s.tickets pid d).project_id = pid := rfl
    simp only [create_daily_snapshot, upsertSnapshot, List.countP_append]
    have h0 : (s.snapshots.filter
        (fun x => ¬(x.date = (computeSnapshotRow s.tickets pid d).date
          ∧ x.project_id = (computeSnapshotRow s.tickets pid d).project_id))).countP
        (fun r => r.date = d ∧ r.project_id = pid) = 0 := by
      rw [List.countP_eq_zero]
      intro a ha
      have hmem := List.of_mem_filter ha
      simp only [hd, hp, decide_not, Bool.not_eq_true', decide_eq_false_iff_not] at hmem
      simpa using hmem
    rw [h0]
    simp [hd, hp]

/-! ## C1 -/

/-- C1 (code bug): in `fetch_project_updates` the ticket batch is saved
BEFORE `_detect_scope_changes` runs, so the detector compares the new
estimate against the already-overwritten row and records nothing — here the
persisted estimate was 5 and the update carries 8, yet no scope-change event
is recorded; the same detector applied to the pre-update store (what the
spec describes) would have recorded the `modified` event with delta 3. -/
theorem fetch_updates_misses_modified_event :
    ((c1Store.tickets.find? (fun r => r.id = 1)).map
        (fun r => r.estimated_hours)) = some (some 5) ∧
    c1Update.estimated_hours = some 8 ∧
    (fetch_project_updates c1Adapter 3 1 true none c1Store).store.scope_changes
      = [] ∧
    (detect_scope_changes 3 1 [c1Update] c1Store).scope_changes
      = [{ date := 3, project_id := 1, ticket_id := 1
           ticket_subject := "Ticket one", change_type := "modified"
           hours_delta := (8 : ℚ) - 5, old_hours := some 5, new_hours := some 8
           reason := "Ticket modified" }] ∧
    (8 : ℚ) - 5 = 3 := by
  refine ⟨rfl, rfl, rfl, rfl, by norm_num⟩

/-! ## C6 -/

lemma maxDate_spec : ∀ (l : List Int), l ≠ [] →
    ∃ m, maxDate l = some m ∧ (∀ x ∈ l, x ≤ m) ∧ m ∈ l := by
  intro l
  induction l with
  | nil => intro h; exact absurd rfl h
  | cons d ds ih =>
      intro _
      by_cases hds : ds = []
      · subst hds
        refine ⟨d, by simp [maxDate], ?_, by simp⟩
        intro x hx
        simp at hx
        simp [hx]
      · obtain ⟨m, hm, hle, hmem⟩ := ih hds
        refine ⟨max d m, by simp [maxDate, hm], ?_, ?_⟩
        · intro x hx
          rcases List.mem_cons.mp hx with h | h
          · simp [h, le_max_left]
          · exact le_trans (hle x h) (le_max_right d m)
        · rcases le_total d m with h | h
          · rw [max_eq_right h]
            exact List.mem_cons_of_mem _ hmem
          · rw [max_eq_left h]
            exact List.mem_cons_self _ _

lemma fetch_usedSince (adapter : Option Int → List TicketData)
    (today : Int) (pid : Nat) (incremental : Bool)
    (since_date : Option Int) (s : Store) :
    (fetch_project_updates adapter today pid incremental since_date s).usedSince
      = effective_since pid incremental since_date s := by
  simp only [fetch_project_updates]
  split <;> rfl

/-- C6: an incremental fetch without an explicit since-date calls the
adapter with the maximum saved-at date over the project's persisted
tickets, and with no since-date at all (a full update pull) when the
project has no persisted tickets. -/
theorem incremental_watermark (adapter : Option Int → List TicketData)
    (today : Int) (pid : Nat) (s : Store) :
    ((s.tickets.filter (fun t => t.project_id = pid)) = [] →
      (fetch_project_updates adapter today pid true none s).usedSince = none) ∧
    ((s.tickets.filter (fun t => t.project_id = pid)) ≠ [] →
      ∃ m, (fetch_project_updates adapter today pid true none s).usedSince = some m
        ∧ (∀ t ∈ s.tickets.filter (fun t => t.project_id = pid), t.updated_at ≤ m)
        ∧ (∃ t ∈ s.tickets.filter (fun t => t.project_id = pid), t.updated_at = m)) := by
  have husd : (fetch_project_updates adapter today pid true none s).usedSince
      = get_last_update_date pid s := by
    rw [fetch_usedSince]
    simp [effective_since]
  constructor
  · intro h
    rw [husd]
    unfold get_last_update_date
    rw [h]
    rfl
  · intro h
    rw [husd]
    unfold get_last_update_date
    have hmapne : (s.tickets.filter (fun t => t.project_id = pid)).map
        (fun t => t.updated_at) ≠ [] := by
      simpa using h
    obtain ⟨m, hm, hle, hmem⟩ := maxDate_spec _ hmapne
    refine ⟨m, hm, ?_, ?_⟩
    · intro t ht
      exact hle _ (List.mem_map_of_mem _ ht)
    · obtain ⟨t, ht, hteq⟩ := List.mem_map.mp hmem
      exact ⟨t, ht, hteq⟩

/-- Witness for C6: project 1 holds tickets saved on days 4 and 9 (and an
unrelated project-2 ticket saved on day 99). -/
theorem incremental_watermark_witness :
    ∃ m, (fetch_project_updates (fun _ => []) 20 1 true none c6Store).usedSince
        = some m
      ∧ (∀ t ∈ c6Store.tickets.filter (fun t => t.project_id = 1), t.updated_at ≤ m)
      ∧ (∃ t ∈ c6Store.tickets.filter (fun t => t.project_id = 1), t.updated_at = m) :=
  (incremental_watermark (fun _ => []) 20 1 c6Store).2 (by decide)

/-! ## C7 -/

/-- C7: when the adapter reports zero updated tickets,
`fetch_project_updates` returns normally and leaves the persisted state
untouched — no ticket rows, no scope-change events, no snapshot rows. -/
theorem zero_updates_noop (adapter : Option Int → List TicketData)
    (today : Int) (pid : Nat) (incremental : Bool) (since_date : Option Int)
    (s : Store) (us : Option Int)
    (hus : (fetch_project_updates adapter today pid incremental since_date s).usedSince = us)
    (hempty : adapter us = []) :
    (fetch_project_updates adapter today pid incremental since_date s).store = s := by
  rw [fetch_usedSince] at hus
  subst hus
  simp [fetch_project_updates, hempty]

/-- Witness for C7: an adapter returning no updates leaves `c7Store`
(one ticket, one snapshot) byte-identical. -/
theorem zero_updates_noop_witness :
    (fetch_project_updates (fun _ => []) 9 1 true none c7Store).store = c7Store :=
  zero_updates_noop (fun _ => []) 9 1 true none c7Store (some 3) (by decide) rfl

/-! ## C4 -/

/-- C4: the completion forecast — already done when the latest snapshot has
no remaining hours; indeterminate (in-band nulls, low confidence) when the
window velocity is non-positive; otherwise the truncated
`remaining / velocity` days ahead of the latest snapshot, with confidence
high exactly when the trailing burn rate is also positive and medium
otherwise. -/
theorem completion_forecast_spec (tl : ProjectTimeline) (vd : Nat)
    (latest : SnapRow) (hlast : tl.snapshots.getLast? = some latest) :
    (latest.remaining_hours ≤ 0 →
      calculate_completion_forecast tl vd
        = ⟨some latest.date, some 0, "high"⟩) ∧
    (0 < latest.remaining_hours → (calculate_velocity tl vd).velocity ≤ 0 →
      calculate_completion_forecast tl vd = ⟨none, none, "low"⟩) ∧
    (0 < latest.remaining_hours → 0 < (calculate_velocity tl vd).velocity →
      calculate_completion_forecast tl vd
        = ⟨some (latest.date
              + pyInt (latest.remaining_hours
                  / (calculate_velocity tl vd).velocity)),
           some (pyInt (latest.remaining_hours
                  / (calculate_velocity tl vd).velocity)),
           if 0 < calculate_burn_rate tl vd then "high" else "medium"⟩) := by
  refine ⟨?_, ?_, ?_⟩
  · intro hrem
    simp [calculate_completion_forecast, hlast, hrem]
  · intro hrem hv
    simp [calculate_completion_forecast, hlast, not_le.mpr hrem, hv]
  · intro hrem hv
    have h1 : ¬ latest.remaining_hours ≤ 0 := not_le.mpr hrem
    have h2 : ¬ (calculate_velocity tl vd).velocity ≤ 0 := not_le.mpr hv
    by_cases hb : 0 < calculate_burn_rate tl vd
    · simp [calculate_completion_forecast, hlast, h1, h2, hb, hv]
    · simp [calculate_completion_forecast, hlast, h1, h2, hb, hv]

/-- Witness for C4: a one-snapshot timeline (no velocity window) yields the
indeterminate forecast. -/
theorem completion_forecast_spec_witness :
    calculate_completion_forecast c4Timeline 14 = ⟨none, none, "low"⟩ :=
  (completion_forecast_spec c4Timeline 14 c4Snap (by decide)).2.1
    (by decide) (by decide)

/-! ## C5 -/

lemma idealTotalDays_pos_le (isHoliday : Int → Bool) (ew : Bool)
    (s e : Int) (h : 0 < idealTotalDays isHoliday ew s e) : s ≤ e := by
  unfold idealTotalDays at h
  split at h
  · by_contra hse
    push_neg at hse
    have hz : get_business_days_between isHoliday s e = 0 := by
      unfold get_business_days_between dayRange
      have ht : (e + 1 - s).toNat = 0 := by omega
      simp [ht]
    rw [hz] at h
    simp at h
  · omega

/-- C5: `calculate_ideal_line` anchored at the date of a stored snapshot
begins at exactly that date with that snapshot's (non-negative)
`remaining_hours`; anchored at a date with no stored snapshot it behaves
exactly like the un-anchored call (fallback to the timeline start and the
first snapshot's total), returning normally. -/
theorem ideal_line_start_anchor (isHoliday : Int → Bool)
    (tl : ProjectTimeline) (ew : Bool) (today : Int) (d : Int)
    (hne : tl.snapshots ≠ []) :
    (∀ snap : SnapRow, tl.snapshots.find? (fun x => x.date = d) = some snap →
      0 ≤ snap.remaining_hours →
      (calculate_ideal_line isHoliday tl ew (some d) today).head?
        = some (d, snap.remaining_hours)) ∧
    (tl.snapshots.find? (fun x => x.date = d) = none →
      calculate_ideal_line isHoliday tl ew (some d) today
        = calculate_ideal_line isHoliday tl ew none today) := by
  obtain ⟨first, rest, hsnap⟩ := List.exists_cons_of_ne_nil hne
  constructor
  · intro snap hfind hpos
    have hrem : get_remaining_hours_for_date tl d = some snap.remaining_hours := by
      simp [get_remaining_hours_for_date, hfind]
    by_cases hdeg : idealTotalDays isHoliday ew d (tl.end_date.getD today) ≤ 0
    · simp [calculate_ideal_line, hsnap, hrem, hdeg]
    · have hde : d ≤ tl.end_date.getD today :=
        idealTotalDays_pos_le isHoliday ew d _ (not_le.mp hdeg)
      obtain ⟨n, hn⟩ : ∃ n, (tl.end_date.getD today + 1 - d).toNat = n + 1 :=
        ⟨(tl.end_date.getD today - d).toNat, by omega⟩
      simp [calculate_ideal_line, hsnap, hrem, hdeg, hn, idealLineLoop,
        max_eq_right hpos]
  · intro hfind
    rw [hsnap] at hfind
    simp [calculate_ideal_line, hsnap, get_remaining_hours_for_date, hfind]

/-- Witness for C5: anchoring at the stored snapshot date 4 starts the line
at (4, 60). -/
theorem ideal_line_start_anchor_witness :
    (calculate_ideal_line (fun _ => false) c5Timeline false (some 4) 20).head?
      = some (4, 60) :=
  (ideal_line_start_anchor (fun _ => false) c5Timeline false 20 4
    (by decide)).1 c5Snap (by decide) (by decide)

/-! ## C9 -/

/-- C9: when the ideal-line span resolves to zero or negative total days the
line degenerates to exactly the two points (start, initial hours) and
(end, 0). -/
theorem ideal_line_degenerate (isHoliday : Int → Bool)
    (tl : ProjectTimeline) (ew : Bool) (today : Int)
    (first : SnapRow) (rest : List SnapRow)
    (hsnap : tl.snapshots = first :: rest)
    (hdeg : idealTotalDays isHoliday ew tl.start_date (tl.end_date.getD today) ≤ 0) :
    calculate_ideal_line isHoliday tl ew none today
      = [(tl.start_date, first.total_estimated_hours),
         (tl.end_date.getD today, 0)] := by
  simp [calculate_ideal_line, hsnap, hdeg]

/-- Witness for C9: a timeline with start date = end date = 5 and 40 initial
hours. -/
theorem ideal_line_degenerate_witness :
    calculate_ideal_line (fun _ => false) c9Timeline false none 30
      = [(5, 40), (5, 0)] :=
  ideal_line_degenerate (fun _ => false) c9Timeline false 30
    { date := 5, project_id := 1, total_estimated_hours := 40
      completed_hours := 0, remaining_hours := 40
      active_ticket_count := 2, completed_ticket_count := 0 } [] rfl (by decide)

/-! ## C10 -/

/-- C10: on a timeline with no snapshots, no calculator operation fails:
both line calculations return the empty list and the forecast returns the
in-band null/low record. -/
theorem empty_timeline_safe (isHoliday : Int → Bool) (tl : ProjectTimeline)
    (ew : Bool) (sfd : Option Int) (today : Int) (vd : Nat)
    (h : tl.snapshots = []) :
    calculate_ideal_line isHoliday tl ew sfd today = [] ∧
    calculate_dynamic_ideal_line isHoliday tl ew today = [] ∧
    calculate_completion_forecast tl vd = ⟨none, none, "low"⟩ := by
  refine ⟨?_, ?_, ?_⟩ <;>
    simp [calculate_ideal_line, calculate_dynamic_ideal_line,
      calculate_completion_forecast, h]

/-- Witness for C10 at a concrete snapshot-free timeline. -/
theorem empty_timeline_safe_witness :
    calculate_completion_forecast c10Timeline 14 = ⟨none, none, "low"⟩ :=
  (empty_timeline_safe (fun _ => false) c10Timeline false none 0 14 rfl).2.2

end RdBurndown
